import Mathlib

/-!
Shallow embedding of `src/index.py`, a read-only HTTP service that profiles
tables of a PostgreSQL database: identifier validation, table/column query
parameter parsing, per-column statistics, duplicate-row accounting and
equal-width histograms.  The database engine is an external collaborator and
is modelled as an oracle (`DB`): each oracle field stands for the result set
of one of the service's read-only SQL queries, with SQL NULL as `none` and
numeric cell values as exact rationals.  Fallible Python code (raised
exceptions) is rendered as `Except`/outcome values; the handler's top-level
`except Exception` clause (src/index.py lines 206-207) maps any uncaught
exception to an HTTP 500 response.
-/

namespace TableProfiler

deriving instance DecidableEq for Except

/-- Characters accepted by the first class of `_IDENT_RE`, the anchored
pattern `^[A-Za-z_][A-Za-z0-9_]*$` of src/index.py line 11. -/
def isIdentStart (c : Char) : Bool :=
  ('A' ≤ c && c ≤ 'Z') || ('a' ≤ c && c ≤ 'z') || c == '_'

/-- Characters accepted by the continuation class `[A-Za-z0-9_]` of
`_IDENT_RE`. -/
def isIdentCont (c : Char) : Bool :=
  isIdentStart c || ('0' ≤ c && c ≤ '9')

/-- Membership in the language of the identifier grammar
`[A-Za-z_][A-Za-z0-9_]*` (spec §4.1): one start character followed by
continuation characters only.  This is the specification-side reading of the
pattern, against which the code's Python matcher is compared. -/
def matchesIdentGrammarL : List Char → Bool
  | [] => false
  | c :: cs => isIdentStart c && cs.all isIdentCont

/-- String form of `matchesIdentGrammarL`. -/
def matchesIdentGrammar (s : String) : Bool :=
  matchesIdentGrammarL s.data

/-- Evaluation of `_IDENT_RE.match(name)` (src/index.py line 16).  CPython's
`re.match` anchors at the start; the pattern consumes one start character and
then, greedily, continuation characters; and without `re.MULTILINE` the
metacharacter `$` matches at the end of the string *or just before a newline
at the end of the string* (CPython `re` documentation).  Neither character
class accepts `'\n'`, so the greedy scan stops exactly where every
backtracking alternative stops, and the match succeeds iff the unconsumed
suffix is `[]` or the single trailing `['\n']`. -/
def identRegexMatchL : List Char → Bool
  | [] => false
  | c :: cs =>
    isIdentStart c &&
      (let rest := cs.dropWhile isIdentCont
       rest == [] || rest == ['\n'])

/-- String form of `identRegexMatchL`. -/
def identRegexMatch (s : String) : Bool :=
  identRegexMatchL s.data

/-- Model of `_sanitize_ident` (src/index.py lines 13-18): a raised
`ValueError` is rendered as `Except.error` carrying the exception's message;
`if not name` is Python string truthiness, i.e. the empty-string test. -/
def sanitize_ident (name : String) : Except String String :=
  if name = "" then .error "Empty identifier"
  else if !identRegexMatch name then .error ("Invalid identifier: " ++ name)
  else .ok name

/-- Python substring containment `needle in hay` on lists of characters:
some suffix of `hay` starts with `needle`. -/
def containsSub (needle hay : List Char) : Bool :=
  (List.range (hay.length + 1)).any fun i => needle.isPrefixOf (hay.drop i)

/-- Python `str.lower()`; the data-type names reported by
`information_schema` are ASCII, where CPython and `Char.toLower` agree. -/
def pyLower (s : String) : String :=
  String.mk (s.data.map Char.toLower)

/-- Trigger substrings of the numeric-stats branch (src/index.py line 169). -/
def numericTypeMarkers : List String :=
  ["integer", "numeric", "double", "real", "bigint", "smallint", "decimal"]

/-- Model of `any(x in (dtype or "").lower() for x in [...])` on line 169 of
src/index.py (a `None` data type would read as `""`; the oracle's data types
are strings, for which `dtype or ""` is the identity on the non-empty ones
and irrelevant on `""`, which contains no marker either way). -/
def isNumericDtype (dtype : String) : Bool :=
  numericTypeMarkers.any fun x => containsSub x.data (pyLower dtype).data

/-- Model of the `table` query-parameter handling shared verbatim by
`/api/summary`, `/api/histogram` and `/api/preview` (src/index.py
lines 152-155, 181-184 and 193-196): a value containing `.` is split by
`tbl.split(".", 1)` on the *first* `.` into schema and table; otherwise the
schema defaults to `"public"` (and `tbl or ""` keeps an empty value empty). -/
def parseTableParam (tbl : String) : String × String :=
  if tbl.data.contains '.' then
    let p := tbl.data.span (fun c => c != '.')
    (String.mk p.1, String.mk (p.2.drop 1))
  else ("public", tbl)

/-- Column metadata row of `_get_columns` (src/index.py lines 43-50). -/
structure ColumnMeta where
  name : String
  data_type : String
deriving DecidableEq

/-- Result row of `_numeric_stats` (src/index.py lines 62-78): SQL aggregates
other than `COUNT` are `NULL` on an empty input, and `STDDEV_SAMP` is `NULL`
for fewer than two values, hence the `Option` fields. -/
structure NumericStats where
  n : Int
  min : Option ℚ
  max : Option ℚ
  mean : Option ℚ
  stddev : Option ℚ
  q1 : Option ℚ
  median : Option ℚ
  q3 : Option ℚ
deriving DecidableEq

/-- Oracle for the external PostgreSQL collaborator.  Each field is the
result of one of the service's read-only queries against a fixed database
state: `getColumns` for `_get_columns`, `nullCount`/`uniqueCount` for the
two per-column counts, `numericStats` for `_numeric_stats` (which may fail,
e.g. an unsupported aggregate on the column's concrete type), `tableRows`
for the full row tuples of a table in the order the engine yields them
(feeding `_table_row_counts_and_dupes` and `/api/preview`), `columnValues`
for one column's values in row order (feeding `_histogram`), and
`description` for `cursor.description` of `SELECT *`. -/
structure DB where
  getColumns : String → String → List ColumnMeta
  nullCount : String → String → String → Nat
  uniqueCount : String → String → String → Nat
  numericStats : String → String → String → Except String NumericStats
  tableRows : String → String → List (List (Option Int))
  columnValues : String → String → String → List (Option ℚ)
  description : String → String → List String

/-- Result of `_table_row_counts_and_dupes` (src/index.py lines 80-91). -/
structure RowStats where
  total_rows : Nat
  duplicate_rows : Nat
  duplicate_pct : ℚ
deriving DecidableEq

/-- Model of `_table_row_counts_and_dupes` (src/index.py lines 80-91) on the
table's row tuples: `COUNT(*)` is the number of rows, `COUNT(DISTINCT
(col_list))` over the tuple of all catalog columns is the number of distinct
row tuples, and `float(dupes) / float(total) if total else 0.0` guards the
division by Python integer truthiness.  Python float division is modelled
exactly on `ℚ`. -/
def table_row_counts_and_dupes (rows : List (List (Option Int))) : RowStats :=
  let total := rows.length
  let distinct := rows.dedup.length
  let dupes := total - distinct
  { total_rows := total
    duplicate_rows := dupes
    duplicate_pct := if total ≠ 0 then (dupes : ℚ) / (total : ℚ) else 0 }

/-- Output row of `_histogram` (src/index.py lines 109-114).  In every
emitted row `mn`/`mx` are the column-wide aggregates of the `stats` CTE and
are non-`NULL`: a row exists only when some non-null value exists. -/
structure HistogramBucket where
  bucket : Int
  count : Nat
  min : ℚ
  max : ℚ
deriving DecidableEq

/-- PostgreSQL `width_bucket(operand, low, high, count)` as called with
`low ≤ high` (here `low`/`high` are the column's min/max): an error for a
non-positive bucket count or equal bounds, bucket `0` below `low`, bucket
`count + 1` from `high` up, and otherwise the equal-width bucket index
`floor((operand - low) / ((high - low) / count)) + 1`. -/
def width_bucket (v mn mx : ℚ) (b : Int) : Except String Int :=
  if b ≤ 0 then .error "count must be greater than zero"
  else if mn = mx then .error "lower bound cannot equal upper bound"
  else if v < mn then .ok 0
  else if mx ≤ v then .ok (b + 1)
  else .ok (⌊(v - mn) / ((mx - mn) / (b : ℚ))⌋ + 1)

/-- Value of `width_bucket` under the preconditions established before any
row is bucketed (a positive bucket count and distinct bounds). -/
def width_bucket_val (v mn mx : ℚ) (b : Int) : Int :=
  if v < mn then 0
  else if mx ≤ v then b + 1
  else ⌊(v - mn) / ((mx - mn) / (b : ℚ))⌋ + 1

/-- Model of `_histogram` (src/index.py lines 93-115) on the profiled
column's values in row order.  The `stats` CTE computes `MIN`/`MAX` of the
non-null values (`NULL` on an empty input, in which case the join against
the `IS NOT NULL` rows is empty and the result has no rows).  `GROUP BY bkt
ORDER BY bkt` yields one row per *distinct occurring* bucket index in
ascending order with its occurrence count — rendered as the distinct
assigned indices (`dedup`) listed in ascending order (`insertionSort`),
each paired with its multiplicity `List.count`, exactly the observable
content of the grouped, ordered result set. -/
def histogram (vals : List (Option ℚ)) (b : Int) :
    Except String (List HistogramBucket) :=
  let nonNull := vals.filterMap id
  match nonNull.min?, nonNull.max? with
  | some mn, some mx => do
      let assigned ← nonNull.mapM (fun v => width_bucket v mn mx b)
      pure ((List.insertionSort (· ≤ ·) assigned.dedup).map fun k =>
        { bucket := k, count := assigned.count k, min := mn, max := mx })
  | _, _ => .ok []

/-- SQL queries the service can issue, for the query log of each capability
(which records that validation happens before any query is issued). -/
inductive Query where
  | getColumns (sch tab : String)
  | rowCounts (sch tab : String) (cols : List String)
  | nullCount (sch tab col : String)
  | uniqueCount (sch tab col : String)
  | numericStatsQ (sch tab col : String)
  | histogramQ (sch tab col : String) (buckets : Int)
  | previewQ (sch tab : String) (limit : Int)
deriving DecidableEq

/-- Per-column entry of the summary report (src/index.py lines 168-174):
the dict always carries `name`, `data_type`, `nulls` and `unique`; exactly
one of `numeric_stats`/`numeric_stats_error` may be added by the
numeric-type branch. -/
structure ColumnEntry where
  name : String
  data_type : String
  nulls : Nat
  unique : Nat
  numeric_stats : Option NumericStats
  numeric_stats_error : Option String
deriving DecidableEq

/-- Payload of a successful `/api/summary` response (src/index.py line 175). -/
structure SummaryReport where
  table : String
  row_stats : RowStats
  columns : List ColumnEntry
deriving DecidableEq

/-- Payload of a successful `/api/histogram` response (line 188). -/
structure HistogramResponse where
  table : String
  column : String
  buckets : Int
  histogram : List HistogramBucket
deriving DecidableEq

/-- Payload of a successful `/api/preview` response (line 202). -/
structure PreviewResponse where
  columns : List String
  rows : List (List (Option Int))
deriving DecidableEq

/-- Outcome of one capability as written by `_write_json`: a success
payload, the explicit 404 of a missing table (src/index.py line 161), or
the top-level `except` clause's 500 (lines 206-207). -/
inductive Outcome (α : Type) where
  | ok (payload : α)
  | notFound (msg : String)
  | serverError (msg : String)
deriving DecidableEq

/-- HTTP status code attached to each outcome by `_write_json`. -/
def Outcome.status {α : Type} : Outcome α → Nat
  | .ok _ => 200
  | .notFound _ => 404
  | .serverError _ => 500

/-- Loop body of the per-column profiling (src/index.py lines 164-174): the
entry always gets `nulls` and `unique`; when the data type is classified
numeric the stats computation is attempted and its failure is caught by the
inner `try`/`except`, recorded as `numeric_stats_error`. -/
def profileColumn (db : DB) (sch tab : String) (c : ColumnMeta) : ColumnEntry :=
  let nulls := db.nullCount sch tab c.name
  let uniq := db.uniqueCount sch tab c.name
  if isNumericDtype c.data_type then
    match db.numericStats sch tab c.name with
    | .ok s =>
      { name := c.name, data_type := c.data_type, nulls := nulls, unique := uniq,
        numeric_stats := some s, numeric_stats_error := none }
    | .error e =>
      { name := c.name, data_type := c.data_type, nulls := nulls, unique := uniq,
        numeric_stats := none, numeric_stats_error := some e }
  else
    { name := c.name, data_type := c.data_type, nulls := nulls, unique := uniq,
      numeric_stats := none, numeric_stats_error := none }

/-- Queries issued while profiling one column, in order (the numeric-stats
query is issued whenever the type is classified numeric, whether or not the
aggregate then fails). -/
def columnQueries (sch tab : String) (c : ColumnMeta) : List Query :=
  [.nullCount sch tab c.name, .uniqueCount sch tab c.name] ++
    (if isNumericDtype c.data_type then [.numericStatsQ sch tab c.name] else [])

/-- Body of the `/api/summary` capability once both identifiers are
validated (src/index.py lines 158-175), paired with the queries it issues
in order: catalog lookup first; on an empty column list the 404 short
circuit; otherwise the row-stats query and the per-column queries. -/
def summarize (db : DB) (sch tab : String) : Outcome SummaryReport × List Query :=
  let cols := db.getColumns sch tab
  if cols = [] then
    (.notFound ("Tabla " ++ sch ++ "." ++ tab ++ " no encontrada"),
      [.getColumns sch tab])
  else
    (.ok { table := sch ++ "." ++ tab
           row_stats := table_row_counts_and_dupes (db.tableRows sch tab)
           columns := cols.map (profileColumn db sch tab) },
      .getColumns sch tab :: .rowCounts sch tab (cols.map (·.name)) ::
        cols.flatMap (columnQueries sch tab))

/-- Dispatch of `GET /api/summary` (src/index.py lines 150-175) together
with the top-level exception handler (lines 206-207): a `ValueError` raised
by `_sanitize_ident` propagates to the `except` clause, which writes the
exception's message with status 500; no connection is opened and no query
issued on that path. -/
def summaryHandler (db : DB) (tblParam : String) :
    Outcome SummaryReport × List Query :=
  let st := parseTableParam tblParam
  match sanitize_ident st.1 with
  | .error e => (.serverError e, [])
  | .ok sch =>
    match sanitize_ident st.2 with
    | .error e => (.serverError e, [])
    | .ok tab => summarize db sch tab

/-- Dispatch of `GET /api/histogram` (src/index.py lines 177-188): schema,
table and column are validated in that order before the connection; a
database error raised while executing the histogram query (for example
`width_bucket` on equal bounds) reaches the top-level handler as a 500,
after the query was issued. -/
def histogramHandler (db : DB) (tblParam colParam : String) (buckets : Int) :
    Outcome HistogramResponse × List Query :=
  let st := parseTableParam tblParam
  match sanitize_ident st.1 with
  | .error e => (.serverError e, [])
  | .ok sch =>
    match sanitize_ident st.2 with
    | .error e => (.serverError e, [])
    | .ok tab =>
      match sanitize_ident colParam with
      | .error e => (.serverError e, [])
      | .ok col =>
        match histogram (db.columnValues sch tab col) buckets with
        | .ok data =>
          (.ok { table := sch ++ "." ++ tab, column := col,
                 buckets := buckets, histogram := data },
            [.histogramQ sch tab col buckets])
        | .error e => (.serverError e, [.histogramQ sch tab col buckets])

/-- Dispatch of `GET /api/preview` (src/index.py lines 190-202): `LIMIT %s`
with a negative bound is a PostgreSQL error surfacing as a 500; otherwise
the engine yields the first `limit` rows of its row order. -/
def previewHandler (db : DB) (tblParam : String) (limit : Int) :
    Outcome PreviewResponse × List Query :=
  let st := parseTableParam tblParam
  match sanitize_ident st.1 with
  | .error e => (.serverError e, [])
  | .ok sch =>
    match sanitize_ident st.2 with
    | .error e => (.serverError e, [])
    | .ok tab =>
      if limit < 0 then
        (.serverError "LIMIT must not be negative", [.previewQ sch tab limit])
      else
        (.ok { columns := db.description sch tab
               rows := (db.tableRows sch tab).take limit.toNat },
          [.previewQ sch tab limit])

/-- Numeric-stats row returned by the sample oracle below for its
well-behaved numeric column. -/
def sampleStats : NumericStats :=
  { n := 2, min := some 1, max := some 2, mean := some (3 / 2),
    stddev := some (1 / 2), q1 := some 1, median := some 1, q3 := some 2 }

/-- Concrete oracle instantiating the theorems: one table `public.t` whose
catalog lists an integer column `id`, a text column `label`, and a column
`w` of a numeric-classified type whose stats aggregate fails. -/
def sampleDB : DB where
  getColumns sch tab :=
    if sch = "public" ∧ tab = "t" then
      [{ name := "id", data_type := "integer" },
       { name := "label", data_type := "text" },
       { name := "w", data_type := "weird_decimal_thing" }]
    else []
  nullCount _ _ col := if col = "id" then 1 else 0
  uniqueCount _ _ _ := 2
  numericStats _ _ col :=
    if col = "w" then .error "unsupported aggregate" else .ok sampleStats
  tableRows _ _ :=
    [[some 1, some 2, none], [some 1, some 2, none], [none, some 3, some 4]]
  columnValues _ _ _ := [some 1, some 2, none]
  description _ _ := ["id", "label", "w"]

/-! ## Theorems -/

/-- C10: every string that passes identifier validation is returned
unchanged — `_sanitize_ident` (src/index.py line 18) is the identity on
accepted names, never normalizing case, trimming or quoting, so the exact
client-supplied spelling is what gets interpolated into SQL. -/
theorem C10_validator_identity_on_accepted (name r : String)
    (h : sanitize_ident name = Except.ok r) : r = name := by
  unfold sanitize_ident at h
  split_ifs at h
  all_goals
    first
      | exact Except.noConfusion h
      | (injection h with h; exact h.symm)

/-- Witness for C10: validation of `customers_demo` succeeds and returns
the very same string. -/
theorem C10_witness : ("customers_demo" : String) = "customers_demo" :=
  C10_validator_identity_on_accepted "customers_demo" "customers_demo" rfl

/-- C5: for every table state, `RowStats` satisfies
`duplicate_rows ≤ total_rows`, and `duplicate_pct` equals
`duplicate_rows / total_rows` with the zero-row case guarded explicitly to
exactly `0` (src/index.py lines 80-91). -/
theorem C5_row_stats_invariant (rows : List (List (Option Int))) :
    (table_row_counts_and_dupes rows).duplicate_rows ≤
        (table_row_counts_and_dupes rows).total_rows ∧
    (table_row_counts_and_dupes rows).duplicate_pct =
      (if (table_row_counts_and_dupes rows).total_rows = 0 then 0
       else ((table_row_counts_and_dupes rows).duplicate_rows : ℚ) /
              ((table_row_counts_and_dupes rows).total_rows : ℚ)) := by
  unfold table_row_counts_and_dupes
  refine ⟨Nat.sub_le _ _, ?_⟩
  by_cases h : rows.length = 0 <;> simp [h]

/-- Witness for C5 at a concrete two-row table with one duplicate. -/
theorem C5_witness :
    (table_row_counts_and_dupes [[some 1], [some 1]]).duplicate_rows ≤
        (table_row_counts_and_dupes [[some 1], [some 1]]).total_rows ∧
    (table_row_counts_and_dupes [[some 1], [some 1]]).duplicate_pct =
      (if (table_row_counts_and_dupes [[some 1], [some 1]]).total_rows = 0 then 0
       else ((table_row_counts_and_dupes [[some 1], [some 1]]).duplicate_rows : ℚ) /
              ((table_row_counts_and_dupes [[some 1], [some 1]]).total_rows : ℚ)) :=
  C5_row_stats_invariant [[some 1], [some 1]]

/-- C3: when the catalog lookup returns no columns for a validated table
reference, `/api/summary` answers `NotFound` (HTTP 404) and issues no row
or column statistics query (src/index.py lines 159-161). -/
theorem C3_empty_catalog_not_found (db : DB) (sch tab : String)
    (h : db.getColumns sch tab = []) :
    (summarize db sch tab).1 =
        Outcome.notFound ("Tabla " ++ sch ++ "." ++ tab ++ " no encontrada") ∧
    Outcome.status (summarize db sch tab).1 = 404 ∧
    (summarize db sch tab).2 = [Query.getColumns sch tab] := by
  unfold summarize
  simp [h, Outcome.status]

/-- Witness for C3: the sample oracle has no columns for
`public.missing`. -/
theorem C3_witness :
    (summarize sampleDB "public" "missing").1 =
        Outcome.notFound ("Tabla " ++ "public" ++ "." ++ "missing" ++ " no encontrada") ∧
    Outcome.status (summarize sampleDB "public" "missing").1 = 404 ∧
    (summarize sampleDB "public" "missing").2 = [Query.getColumns "public" "missing"] :=
  C3_empty_catalog_not_found sampleDB "public" "missing" (by decide)

/-- C2: a failing numeric-stats computation is caught (src/index.py
lines 170-173) and recorded as a string error on that column only: the
enclosing report is still produced, every catalog column (the failing one
included) is profiled with its `nulls` and `unique` counts, and no column
ever carries both `numeric_stats` and `numeric_stats_error`. -/
theorem C2_column_failure_isolation (db : DB) (sch tab : String)
    (h : db.getColumns sch tab ≠ []) :
    (summarize db sch tab).1 =
        Outcome.ok { table := sch ++ "." ++ tab
                     row_stats := table_row_counts_and_dupes (db.tableRows sch tab)
                     columns := (db.getColumns sch tab).map (profileColumn db sch tab) } ∧
    ∀ c ∈ db.getColumns sch tab,
      (profileColumn db sch tab c).nulls = db.nullCount sch tab c.name ∧
      (profileColumn db sch tab c).unique = db.uniqueCount sch tab c.name ∧
      (∀ e, isNumericDtype c.data_type = true →
          db.numericStats sch tab c.name = Except.error e →
          (profileColumn db sch tab c).numeric_stats_error = some e ∧
          (profileColumn db sch tab c).numeric_stats = none) ∧
      ¬((profileColumn db sch tab c).numeric_stats.isSome = true ∧
        (profileColumn db sch tab c).numeric_stats_error.isSome = true) := by
  constructor
  · unfold summarize
    simp [h]
  · intro c _
    unfold profileColumn
    by_cases hn : isNumericDtype c.data_type
    · cases hst : db.numericStats sch tab c.name with
      | ok s => simp [hn, hst]
      | error e => simp [hn, hst]
    · simp [hn]

/-- Witness for C2: the sample table `public.t` has a numeric-typed column
`w` whose stats computation fails, next to a succeeding `id` and a
non-numeric `label`. -/
theorem C2_witness :
    (summarize sampleDB "public" "t").1 =
        Outcome.ok { table := "public" ++ "." ++ "t"
                     row_stats := table_row_counts_and_dupes (sampleDB.tableRows "public" "t")
                     columns := (sampleDB.getColumns "public" "t").map
                       (profileColumn sampleDB "public" "t") } ∧
    ∀ c ∈ sampleDB.getColumns "public" "t",
      (profileColumn sampleDB "public" "t" c).nulls = sampleDB.nullCount "public" "t" c.name ∧
      (profileColumn sampleDB "public" "t" c).unique = sampleDB.uniqueCount "public" "t" c.name ∧
      (∀ e, isNumericDtype c.data_type = true →
          sampleDB.numericStats "public" "t" c.name = Except.error e →
          (profileColumn sampleDB "public" "t" c).numeric_stats_error = some e ∧
          (profileColumn sampleDB "public" "t" c).numeric_stats = none) ∧
      ¬((profileColumn sampleDB "public" "t" c).numeric_stats.isSome = true ∧
        (profileColumn sampleDB "public" "t" c).numeric_stats_error.isSome = true) :=
  C2_column_failure_isolation sampleDB "public" "t" (by decide)

/-- C4: numeric stats are attempted for a column (the stats query is
issued, and exactly one of the stats/error fields appears) iff the
data-type string contains, case-insensitively, one of the seven trigger
substrings of src/index.py line 169; in particular type `integer` triggers
the attempt — yielding `numeric_stats` when the aggregate succeeds — and
type `text` yields neither field. -/
theorem C4_numeric_classification (db : DB) (sch tab : String) (c : ColumnMeta) :
    (((profileColumn db sch tab c).numeric_stats.isSome = true ∨
        (profileColumn db sch tab c).numeric_stats_error.isSome = true) ↔
      isNumericDtype c.data_type = true) ∧
    (Query.numericStatsQ sch tab c.name ∈ columnQueries sch tab c ↔
      isNumericDtype c.data_type = true) ∧
    isNumericDtype "integer" = true ∧
    isNumericDtype "text" = false ∧
    (∀ s, c.data_type = "integer" → db.numericStats sch tab c.name = Except.ok s →
      (profileColumn db sch tab c).numeric_stats = some s) ∧
    (c.data_type = "text" →
      (profileColumn db sch tab c).numeric_stats = none ∧
      (profileColumn db sch tab c).numeric_stats_error = none) := by
  refine ⟨?_, ?_, by decide, by decide, ?_, ?_⟩
  · unfold profileColumn
    by_cases hn : isNumericDtype c.data_type
    · cases hst : db.numericStats sch tab c.name with
      | ok s => simp [hn, hst]
      | error e => simp [hn, hst]
    · simp [hn]
  · unfold columnQueries
    by_cases hn : isNumericDtype c.data_type <;> simp [hn]
  · intro s hdt hst
    have hn : isNumericDtype c.data_type = true := by rw [hdt]; decide
    unfold profileColumn
    simp [hn, hst]
  · intro hdt
    have hn : isNumericDtype c.data_type = false := by rw [hdt]; decide
    unfold profileColumn
    simp [hn]

/-- Auxiliary: `dropWhile` skips an entire prefix whose members all
satisfy `p`. -/
lemma dropWhile_append_of_all {α : Type} {p : α → Bool} (l₁ l₂ : List α)
    (h : ∀ x ∈ l₁, p x = true) : (l₁ ++ l₂).dropWhile p = l₂.dropWhile p := by
  induction l₁ with
  | nil => simp
  | cons a t ih =>
    have ha : p a = true := h a (List.mem_cons_self a t)
    simp only [List.cons_append, List.dropWhile_cons, ha, if_true]
    exact ih (fun x hx => h x (List.mem_cons_of_mem a hx))

/-- Auxiliary characterization of the Python matcher on character lists:
it accepts exactly the grammar words and the grammar words extended by one
trailing newline. -/
lemma identRegexMatchL_iff (l : List Char) :
    identRegexMatchL l = true ↔
      (matchesIdentGrammarL l = true ∨
        ∃ l' : List Char, matchesIdentGrammarL l' = true ∧ l = l' ++ ['\n']) := by
  cases l with
  | nil =>
    constructor
    · intro h
      exact absurd h (by decide)
    · rintro (h | ⟨l', _, he⟩)
      · exact absurd h (by decide)
      · exact absurd he.symm (by simp)
  | cons c cs =>
    by_cases hs : isIdentStart c = true
    · simp only [identRegexMatchL, matchesIdentGrammarL, hs, Bool.true_and]
      constructor
      · intro h
        rcases Bool.or_eq_true _ _ |>.mp h with h1 | h2
        · left
          have hall : ∀ x ∈ cs, isIdentCont x = true :=
            List.dropWhile_eq_nil_iff.mp (by simpa using h1)
          simpa using hall
        · right
          have hdw : cs.dropWhile isIdentCont = ['\n'] := by simpa using h2
          refine ⟨c :: cs.takeWhile isIdentCont, ?_, ?_⟩
          · simp only [matchesIdentGrammarL, hs, Bool.true_and]
            simp only [List.all_eq_true]
            exact fun x hx => List.mem_takeWhile_imp hx
          · rw [List.cons_append]
            have hsplit := List.takeWhile_append_dropWhile (p := isIdentCont) (l := cs)
            rw [← hdw]
            rw [hsplit]
      · rintro (h | ⟨l', hg, he⟩)
        · have hall : ∀ x ∈ cs, isIdentCont x = true := by simpa using h
          have hnil : cs.dropWhile isIdentCont = [] :=
            List.dropWhile_eq_nil_iff.mpr hall
          simp [hnil]
        · cases l' with
          | nil => exact absurd hg (by decide)
          | cons c' t =>
            rw [List.cons_append] at he
            injection he with he1 he2
            simp only [matchesIdentGrammarL, Bool.and_eq_true] at hg
            have hall : ∀ x ∈ t, isIdentCont x = true := by simpa using hg.2
            rw [he2, dropWhile_append_of_all t ['\n'] hall]
            decide
    · constructor
      · intro h
        simp only [identRegexMatchL, Bool.and_eq_true] at h
        exact absurd h.1 hs
      · rintro (h | ⟨l', hg, he⟩)
        · simp only [matchesIdentGrammarL, Bool.and_eq_true] at h
          exact absurd h.1 hs
        · cases l' with
          | nil =>
            exact absurd hg (by decide)
          | cons c' t =>
            rw [List.cons_append] at he
            injection he with he1 he2
            simp only [matchesIdentGrammarL, Bool.and_eq_true] at hg
            rw [he1] at hs
            exact absurd hg.1 hs

/-- Auxiliary string-level form of `identRegexMatchL_iff`. -/
lemma identRegexMatch_iff (name : String) :
    identRegexMatch name = true ↔
      (matchesIdentGrammar name = true ∨
        ∃ core : String, matchesIdentGrammar core = true ∧ name = core ++ "\n") := by
  rw [identRegexMatch, matchesIdentGrammar, identRegexMatchL_iff]
  constructor
  · rintro (h | ⟨l', hg, he⟩)
    · exact Or.inl h
    · refine Or.inr ⟨String.mk l', hg, ?_⟩
      apply String.ext
      rw [String.data_append]
      exact he
  · rintro (h | ⟨core, hg, he⟩)
    · exact Or.inl h
    · refine Or.inr ⟨core.data, hg, ?_⟩
      rw [he, String.data_append]

/-- Auxiliary: validation succeeds exactly on the strings the Python regex
match accepts (the empty string fails both the truthiness test and the
match). -/
lemma sanitize_ident_isOk_iff (name : String) :
    (sanitize_ident name).isOk = true ↔ identRegexMatch name = true := by
  unfold sanitize_ident
  by_cases h : name = ""
  · subst h
    simp [show identRegexMatch "" = false from by decide, Except.isOk, Except.toBool]
  · by_cases hm : identRegexMatch name = true <;>
      simp [h, hm, Except.isOk, Except.toBool]

/-- C1 (amended): identifier validation fails exactly when the name is
neither a word of the grammar `[A-Za-z_][A-Za-z0-9_]*` nor such a word
followed by one trailing newline — CPython's `$` also matches just before
a final newline, so `_sanitize_ident` accepts exactly one extra string per
grammar word relative to the claim's reading of the anchored regex; the
empty string is rejected.  And for every request whose schema, table, or
column input fails this validation, the handler issues no database query
(validation precedes any connection). -/
theorem C1_validation_grammar_and_no_query :
    (∀ name : String, (sanitize_ident name).isOk = false ↔
        ¬(matchesIdentGrammar name = true ∨
          ∃ core : String, matchesIdentGrammar core = true ∧ name = core ++ "\n")) ∧
    (∀ (db : DB) (tbl : String),
        ((sanitize_ident (parseTableParam tbl).1).isOk = false ∨
         (sanitize_ident (parseTableParam tbl).2).isOk = false) →
        (summaryHandler db tbl).2 = []) ∧
    (∀ (db : DB) (tbl : String) (lim : Int),
        ((sanitize_ident (parseTableParam tbl).1).isOk = false ∨
         (sanitize_ident (parseTableParam tbl).2).isOk = false) →
        (previewHandler db tbl lim).2 = []) ∧
    (∀ (db : DB) (tbl col : String) (b : Int),
        ((sanitize_ident (parseTableParam tbl).1).isOk = false ∨
         (sanitize_ident (parseTableParam tbl).2).isOk = false ∨
         (sanitize_ident col).isOk = false) →
        (histogramHandler db tbl col b).2 = []) := by
  refine ⟨?_, ?_, ?_, ?_⟩
  · intro name
    rw [← identRegexMatch_iff, Bool.eq_false_iff]
    exact not_congr (sanitize_ident_isOk_iff name)
  · intro db tbl h
    cases h1 : sanitize_ident (parseTableParam tbl).1 with
    | error e => simp [summaryHandler, h1]
    | ok s =>
      cases h2 : sanitize_ident (parseTableParam tbl).2 with
      | error e => simp [summaryHandler, h1, h2]
      | ok t =>
        exfalso
        rcases h with h | h
        · rw [h1] at h; exact Bool.noConfusion h
        · rw [h2] at h; exact Bool.noConfusion h
  · intro db tbl lim h
    cases h1 : sanitize_ident (parseTableParam tbl).1 with
    | error e => simp [previewHandler, h1]
    | ok s =>
      cases h2 : sanitize_ident (parseTableParam tbl).2 with
      | error e => simp [previewHandler, h1, h2]
      | ok t =>
        exfalso
        rcases h with h | h
        · rw [h1] at h; exact Bool.noConfusion h
        · rw [h2] at h; exact Bool.noConfusion h
  · intro db tbl col b h
    cases h1 : sanitize_ident (parseTableParam tbl).1 with
    | error e => simp [histogramHandler, h1]
    | ok s =>
      cases h2 : sanitize_ident (parseTableParam tbl).2 with
      | error e => simp [histogramHandler, h1, h2]
      | ok t =>
        cases h3 : sanitize_ident col with
        | error e => simp [histogramHandler, h1, h2, h3]
        | ok u =>
          exfalso
          rcases h with h | h | h
          · rw [h1] at h; exact Bool.noConfusion h
          · rw [h2] at h; exact Bool.noConfusion h
          · rw [h3] at h; exact Bool.noConfusion h

/-- C1 counterexample: the string `"a\n"` is nonempty and is not a word of
the identifier grammar `[A-Za-z_][A-Za-z0-9_]*` — under the claim its
validation must fail — yet `_sanitize_ident` accepts it and returns it
unchanged, because CPython's `$` also matches just before the trailing
newline. -/
theorem C1_counterexample :
    matchesIdentGrammar "a\n" = false ∧ ("a\n" : String) ≠ "" ∧
    sanitize_ident "a\n" = Except.ok "a\n" :=
  ⟨by decide, by decide, rfl⟩

/-- Auxiliary: `takeWhile` keeps an entire prefix whose members all
satisfy `p`. -/
lemma takeWhile_append_of_all {α : Type} {p : α → Bool} (l₁ l₂ : List α)
    (h : ∀ x ∈ l₁, p x = true) :
    (l₁ ++ l₂).takeWhile p = l₁ ++ l₂.takeWhile p := by
  induction l₁ with
  | nil => simp
  | cons a t ih =>
    have ha : p a = true := h a (List.mem_cons_self a t)
    simp only [List.cons_append, List.takeWhile_cons, ha, if_true]
    rw [ih (fun x hx => h x (List.mem_cons_of_mem a hx))]

/-- C8: a `table` query value containing `.` is split on the first `.`
into schema and table, an unqualified value gets the default schema
`public`, and the unqualified name `orders` is processed identically to
`public.orders` by `/api/summary`, `/api/histogram` and `/api/preview`. -/
theorem C8_table_param_split_and_default :
    (∀ s t : String, s.data.contains '.' = false →
        parseTableParam (s ++ "." ++ t) = (s, t)) ∧
    (∀ tbl : String, tbl.data.contains '.' = false →
        parseTableParam tbl = ("public", tbl)) ∧
    parseTableParam "orders" = parseTableParam "public.orders" ∧
    (∀ db : DB, summaryHandler db "orders" = summaryHandler db "public.orders") ∧
    (∀ (db : DB) (b : Int),
        histogramHandler db "orders" "id" b =
          histogramHandler db "public.orders" "id" b) ∧
    (∀ (db : DB) (lim : Int),
        previewHandler db "orders" lim = previewHandler db "public.orders" lim) := by
  have hparse1 : parseTableParam "orders" = ("public", "orders") := by decide
  have hparse2 : parseTableParam "public.orders" = ("public", "orders") := by decide
  refine ⟨?_, ?_, ?_, ?_, ?_, ?_⟩
  · intro s t hnd
    have hdata : (s ++ "." ++ t).data = s.data ++ '.' :: t.data := by
      rw [String.data_append, String.data_append]
      show (s.data ++ ['.']) ++ t.data = _
      simp
    have hall : ∀ c ∈ s.data, (c != '.') = true := by
      intro c hc
      have hne : c ≠ '.' := by
        intro hEq
        subst hEq
        have hcontra : s.data.contains '.' = true := List.elem_iff.mpr hc
        rw [hcontra] at hnd
        exact Bool.noConfusion hnd
      simpa [bne_iff_ne] using hne
    have hcont : (s ++ "." ++ t).data.contains '.' = true := by
      rw [hdata]
      exact List.elem_iff.mpr (by simp)
    have hspan : (s.data ++ '.' :: t.data).span (fun c => c != '.') =
        (s.data, '.' :: t.data) := by
      rw [List.span_eq_take_drop]
      rw [takeWhile_append_of_all _ _ hall, dropWhile_append_of_all _ _ hall]
      simp [List.takeWhile_cons, List.dropWhile_cons]
    unfold parseTableParam
    rw [hcont, if_pos rfl, hdata, hspan]
    rfl
  · intro tbl hnd
    unfold parseTableParam
    rw [hnd]
    simp
  · rw [hparse1, hparse2]
  · intro db
    simp only [summaryHandler, hparse1, hparse2]
  · intro db b
    simp only [histogramHandler, hparse1, hparse2]
  · intro db lim
    simp only [previewHandler, hparse1, hparse2]

/-- C9 (amended): a request carrying a malformed schema, table or column
name is answered with the `ValueError` message under HTTP status 500 — the
failure surfaces through the generic top-level exception handler
(src/index.py lines 206-207), not as a 4xx. -/
theorem C9_invalid_identifier_yields_500 :
    (∀ (db : DB) (tbl : String),
        ((sanitize_ident (parseTableParam tbl).1).isOk = false ∨
         (sanitize_ident (parseTableParam tbl).2).isOk = false) →
        ∃ e, (summaryHandler db tbl).1 = Outcome.serverError e ∧
          Outcome.status (summaryHandler db tbl).1 = 500) ∧
    (∀ (db : DB) (tbl : String) (lim : Int),
        ((sanitize_ident (parseTableParam tbl).1).isOk = false ∨
         (sanitize_ident (parseTableParam tbl).2).isOk = false) →
        ∃ e, (previewHandler db tbl lim).1 = Outcome.serverError e ∧
          Outcome.status (previewHandler db tbl lim).1 = 500) ∧
    (∀ (db : DB) (tbl col : String) (b : Int),
        ((sanitize_ident (parseTableParam tbl).1).isOk = false ∨
         (sanitize_ident (parseTableParam tbl).2).isOk = false ∨
         (sanitize_ident col).isOk = false) →
        ∃ e, (histogramHandler db tbl col b).1 = Outcome.serverError e ∧
          Outcome.status (histogramHandler db tbl col b).1 = 500) := by
  refine ⟨?_, ?_, ?_⟩
  · intro db tbl h
    cases h1 : sanitize_ident (parseTableParam tbl).1 with
    | error e => exact ⟨e, by simp [summaryHandler, h1], by simp [summaryHandler, h1, Outcome.status]⟩
    | ok s =>
      cases h2 : sanitize_ident (parseTableParam tbl).2 with
      | error e =>
        exact ⟨e, by simp [summaryHandler, h1, h2],
          by simp [summaryHandler, h1, h2, Outcome.status]⟩
      | ok t =>
        exfalso
        rcases h with h | h
        · rw [h1] at h; exact Bool.noConfusion h
        · rw [h2] at h; exact Bool.noConfusion h
  · intro db tbl lim h
    cases h1 : sanitize_ident (parseTableParam tbl).1 with
    | error e => exact ⟨e, by simp [previewHandler, h1], by simp [previewHandler, h1, Outcome.status]⟩
    | ok s =>
      cases h2 : sanitize_ident (parseTableParam tbl).2 with
      | error e =>
        exact ⟨e, by simp [previewHandler, h1, h2],
          by simp [previewHandler, h1, h2, Outcome.status]⟩
      | ok t =>
        exfalso
        rcases h with h | h
        · rw [h1] at h; exact Bool.noConfusion h
        · rw [h2] at h; exact Bool.noConfusion h
  · intro db tbl col b h
    cases h1 : sanitize_ident (parseTableParam tbl).1 with
    | error e => exact ⟨e, by simp [histogramHandler, h1], by simp [histogramHandler, h1, Outcome.status]⟩
    | ok s =>
      cases h2 : sanitize_ident (parseTableParam tbl).2 with
      | error e =>
        exact ⟨e, by simp [histogramHandler, h1, h2],
          by simp [histogramHandler, h1, h2, Outcome.status]⟩
      | ok t =>
        cases h3 : sanitize_ident col with
        | error e =>
          exact ⟨e, by simp [histogramHandler, h1, h2, h3],
            by simp [histogramHandler, h1, h2, h3, Outcome.status]⟩
        | ok u =>
          exfalso
          rcases h with h | h | h
          · rw [h1] at h; exact Bool.noConfusion h
          · rw [h2] at h; exact Bool.noConfusion h
          · rw [h3] at h; exact Bool.noConfusion h

/-- C9 counterexample: the malformed table name `bad-name` on
`/api/summary` is answered with HTTP status 500 — not a 4xx as the claim
requires — carrying the `ValueError` message. -/
theorem C9_counterexample :
    (summaryHandler sampleDB "bad-name").1 =
        Outcome.serverError "Invalid identifier: bad-name" ∧
    Outcome.status (summaryHandler sampleDB "bad-name").1 = 500 ∧
    ¬(400 ≤ Outcome.status (summaryHandler sampleDB "bad-name").1 ∧
      Outcome.status (summaryHandler sampleDB "bad-name").1 < 500) := by
  decide

/-- Auxiliary: `width_bucket` succeeds with `width_bucket_val` under the
preconditions the histogram run establishes. -/
lemma width_bucket_ok (v mn mx : ℚ) (b : Int) (hb : ¬b ≤ 0) (hne : mn ≠ mx) :
    width_bucket v mn mx b = Except.ok (width_bucket_val v mn mx b) := by
  unfold width_bucket width_bucket_val
  rw [if_neg hb, if_neg hne]
  split_ifs <;> rfl

/-- Auxiliary: `mapM` over `Except` succeeds pointwise. -/
lemma mapM_ok_of_forall {α β : Type} (f : α → Except String β) (g : α → β) :
    ∀ l : List α, (∀ a ∈ l, f a = Except.ok (g a)) →
      l.mapM f = Except.ok (l.map g) := by
  intro l
  induction l with
  | nil => intro _; rfl
  | cons a t ih =>
    intro h
    rw [List.mapM_cons, h a (List.mem_cons_self a t),
      ih (fun x hx => h x (List.mem_cons_of_mem a hx))]
    rfl

/-- Auxiliary: `mapM` over `Except` fails as soon as its head fails. -/
lemma mapM_error_head {α β : Type} (f : α → Except String β) (a : α)
    (t : List α) (e : String) (h : f a = Except.error e) :
    (a :: t).mapM f = Except.error e := by
  rw [List.mapM_cons, h]
  rfl

/-- Auxiliary dissection of a successful histogram computation: either the
column has no non-null value and the result is empty, or the result is
exactly the rows built from the ascending distinct bucket indices of the
values' `width_bucket` assignments against the column-wide min and max. -/
lemma histogram_ok_shape (vals : List (Option ℚ)) (b : Int)
    (rows : List HistogramBucket) (h : histogram vals b = Except.ok rows) :
    (vals.filterMap id = [] ∧ rows = []) ∨
    ∃ mn mx : ℚ, (vals.filterMap id).min? = some mn ∧
      (vals.filterMap id).max? = some mx ∧
      rows = (List.insertionSort (· ≤ ·)
          (((vals.filterMap id).map (fun v => width_bucket_val v mn mx b)).dedup)).map
        (fun k =>
          { bucket := k
            count := ((vals.filterMap id).map (fun v => width_bucket_val v mn mx b)).count k
            min := mn, max := mx }) := by
  simp only [histogram] at h
  cases hmn : (vals.filterMap id).min? with
  | none =>
    rw [hmn] at h
    cases hmx : (vals.filterMap id).max? with
    | none =>
      rw [hmx] at h
      simp at h
      exact Or.inl ⟨List.min?_eq_none_iff.mp hmn, h⟩
    | some mx =>
      rw [hmx] at h
      simp at h
      exact Or.inl ⟨List.min?_eq_none_iff.mp hmn, h⟩
  | some mn =>
    cases hmx : (vals.filterMap id).max? with
    | none =>
      exfalso
      have hempty := List.max?_eq_none_iff.mp hmx
      rw [hempty] at hmn
      exact Option.noConfusion hmn
    | some mx =>
      rw [hmn, hmx] at h
      simp only at h
      have hmem : mn ∈ vals.filterMap id :=
        List.min?_mem (fun a b => min_choice a b) hmn
      by_cases hb : b ≤ 0
      · exfalso
        cases hnn : vals.filterMap id with
        | nil =>
          rw [hnn] at hmem
          exact List.not_mem_nil mn hmem
        | cons v₀ tl =>
          rw [hnn] at h
          rw [mapM_error_head (fun v => width_bucket v mn mx b) v₀ tl
            "count must be greater than zero"
            (by show width_bucket v₀ mn mx b = _; unfold width_bucket; rw [if_pos hb])] at h
          simp at h
      · by_cases hne : mn = mx
        · exfalso
          cases hnn : vals.filterMap id with
          | nil =>
            rw [hnn] at hmem
            exact List.not_mem_nil mn hmem
          | cons v₀ tl =>
            rw [hnn] at h
            rw [mapM_error_head (fun v => width_bucket v mn mx b) v₀ tl
              "lower bound cannot equal upper bound"
              (by show width_bucket v₀ mn mx b = _
                  unfold width_bucket
                  rw [if_neg hb, if_pos hne])] at h
            simp at h
        · right
          refine ⟨mn, mx, rfl, rfl, ?_⟩
          rw [mapM_ok_of_forall (fun v => width_bucket v mn mx b)
            (fun v => width_bucket_val v mn mx b) (vals.filterMap id)
            (fun v _ => width_bucket_ok v mn mx b hb hne)] at h
          simp at h
          exact h.symm

/-- C6: in every histogram result the buckets appear in strictly ascending
bucket-index order, every listed bucket has count at least one (zero-count
buckets are omitted, never emitted), and the bucket counts sum to the
number of non-null values of the column. -/
theorem C6_histogram_bucket_properties (vals : List (Option ℚ)) (b : Int)
    (rows : List HistogramBucket) (h : histogram vals b = Except.ok rows) :
    rows.Pairwise (fun r₁ r₂ => r₁.bucket < r₂.bucket) ∧
    (∀ r ∈ rows, 1 ≤ r.count) ∧
    (rows.map HistogramBucket.count).sum = (vals.filterMap id).length := by
  rcases histogram_ok_shape vals b rows h with ⟨hempty, hrows⟩ | ⟨mn, mx, _, _, hrows⟩
  · subst hrows
    exact ⟨List.Pairwise.nil, by simp, by simp [hempty]⟩
  · subst hrows
    have hperm := List.perm_insertionSort (· ≤ ·)
      (((vals.filterMap id).map (fun v => width_bucket_val v mn mx b)).dedup)
    refine ⟨?_, ?_, ?_⟩
    · rw [List.pairwise_map]
      exact (List.sorted_insertionSort (· ≤ ·) _).lt_of_le
        (hperm.symm.nodup (List.nodup_dedup _))
    · intro r hr
      rcases List.mem_map.mp hr with ⟨k, hk, rfl⟩
      exact List.count_pos_iff.mpr (List.mem_dedup.mp (hperm.subset hk))
    · rw [List.map_map]
      rw [show (HistogramBucket.count ∘ fun k =>
          ({ bucket := k
             count := ((vals.filterMap id).map (fun v => width_bucket_val v mn mx b)).count k
             min := mn, max := mx } : HistogramBucket)) =
          fun k => ((vals.filterMap id).map (fun v => width_bucket_val v mn mx b)).count k
        from rfl]
      rw [(hperm.map _).sum_eq, List.sum_map_count_dedup_eq_length, List.length_map]

/-- Witness for C6: two values `1, 2` (plus a SQL NULL) in two buckets give
the strictly ascending bucket list `[1, 3]` (PostgreSQL puts the maximum in
the edge bucket `count + 1`), all counts `1`, summing to the two non-null
values. -/
theorem C6_witness :
    ([{ bucket := 1, count := 1, min := 1, max := 2 },
      { bucket := 3, count := 1, min := 1, max := 2 }] :
        List HistogramBucket).Pairwise (fun r₁ r₂ => r₁.bucket < r₂.bucket) ∧
    (∀ r ∈ ([{ bucket := 1, count := 1, min := 1, max := 2 },
      { bucket := 3, count := 1, min := 1, max := 2 }] : List HistogramBucket),
        1 ≤ r.count) ∧
    (([{ bucket := 1, count := 1, min := 1, max := 2 },
      { bucket := 3, count := 1, min := 1, max := 2 }] :
        List HistogramBucket).map HistogramBucket.count).sum =
      (([some 1, some 2, none] : List (Option ℚ)).filterMap id).length :=
  C6_histogram_bucket_properties [some 1, some 2, none] 2
    [{ bucket := 1, count := 1, min := 1, max := 2 },
     { bucket := 3, count := 1, min := 1, max := 2 }] (by with_unfolding_all rfl)

/-- C7: every bucket of a histogram result reports as its `min`/`max`
fields the column-wide minimum and maximum of the non-null values (the
extremes that fix the bucket width), identical across all buckets, not the
bucket's own local bounds. -/
theorem C7_bucket_min_max_column_wide (vals : List (Option ℚ)) (b : Int)
    (rows : List HistogramBucket) (h : histogram vals b = Except.ok rows) :
    ∀ r ∈ rows, (vals.filterMap id).min? = some r.min ∧
      (vals.filterMap id).max? = some r.max ∧
      ∀ x ∈ vals.filterMap id, r.min ≤ x ∧ x ≤ r.max := by
  rcases histogram_ok_shape vals b rows h with ⟨_, hrows⟩ | ⟨mn, mx, hmn, hmx, hrows⟩
  · subst hrows
    intro r hr
    exact absurd hr (List.not_mem_nil r)
  · subst hrows
    intro r hr
    rcases List.mem_map.mp hr with ⟨k, _, rfl⟩
    refine ⟨hmn, hmx, ?_⟩
    intro x hx
    exact ⟨(List.le_min?_iff (fun a b c => le_min_iff) hmn).mp le_rfl x hx,
      (List.max?_le_iff (fun a b c => max_le_iff) hmx).mp le_rfl x hx⟩

/-- Witness for C7: in the two-bucket histogram of the values `1, 2`, the
first emitted bucket reports the column-wide extremes `1` and `2`, which
bound every non-null value. -/
theorem C7_witness :
    (([some 1, some 2, none] : List (Option ℚ)).filterMap id).min? =
      some ({ bucket := 1, count := 1, min := 1, max := 2 } : HistogramBucket).min ∧
    (([some 1, some 2, none] : List (Option ℚ)).filterMap id).max? =
      some ({ bucket := 1, count := 1, min := 1, max := 2 } : HistogramBucket).max ∧
    ∀ x ∈ ([some 1, some 2, none] : List (Option ℚ)).filterMap id,
      ({ bucket := 1, count := 1, min := 1, max := 2 } : HistogramBucket).min ≤ x ∧
      x ≤ ({ bucket := 1, count := 1, min := 1, max := 2 } : HistogramBucket).max :=
  C7_bucket_min_max_column_wide [some 1, some 2, none] 2
    [{ bucket := 1, count := 1, min := 1, max := 2 },
     { bucket := 3, count := 1, min := 1, max := 2 }] (by with_unfolding_all rfl)
    { bucket := 1, count := 1, min := 1, max := 2 }
    (List.mem_cons_self _ _)

end TableProfiler
